import Mathlib

/-!
Verification development for the Booking-System repository.

The repository is a small event-booking application backed by a hosted
relational database.  The authorization-relevant core lives in the SQL
schema file (tables `profiles`, `bookings`, `notifications`, row-level
security policies, the `get_admin_conversion_stats` function and the
`handle_new_user` trigger), in a follow-up migration that drops the
recursive "Super admins can read all profiles" policy, and in the React
components (`BookingForm`, `AuthForm`, `AdminDashboard`,
`SuperAdminDashboard`) that issue the CRUD calls.

This file gives a shallow embedding of those parts:
  * the table rows as Lean structures (text-typed `role` and `status`
    exactly as in SQL, with the CHECK constraints as predicates),
  * each row-level-security USING clause as a Boolean predicate over an
    explicit database state and caller id,
  * `get_admin_conversion_stats` as a Lean function over the database
    state (timestamps are rationals holding epoch seconds),
  * `handle_new_user` and the client-side mutations (`BookingForm`
    insert, `updateBookingStatus`, `uploadReceipts`, `assignInquiry`) as
    pure functions,
  * the DDL statements of the schema file as a list of commands with a
    small catalog semantics, in order to study re-running the schema.
-/

namespace BookingSystem

/-- Opaque identifiers (`uuid` columns) are modelled as naturals. -/
abbrev Uuid := Nat

/-- A row of the `profiles` table.  `role` is text, constrained by
`CHECK (role IN ('client', 'admin', 'super_admin'))`, which is modelled
separately by `roleCheck`. -/
structure Profile where
  id : Uuid
  email : String
  name : String
  phone : Option String
  role : String
  admin_color : Option String
deriving DecidableEq, Repr

/-- The CHECK constraint on `profiles.role`. -/
def roleCheck (r : String) : Bool :=
  r == "client" || r == "admin" || r == "super_admin"

/-- A row of the `bookings` table.  `status` is text, constrained by
`CHECK (status IN ('inquiry', 'confirmed', 'cleared'))` (see
`statusCheck`).  Timestamps (`created_at`, `updated_at`) are rationals
holding epoch seconds; `total_spend` is a rational. -/
structure BookingRow where
  id : Uuid
  client_id : Option Uuid
  client_name : String
  email : String
  phone_number : String
  event_date : String
  time_slot : String
  facility : String
  package : String
  special_requests : Option String
  status : String
  assigned_admin_id : Option Uuid
  total_spend : Option ℚ
  receipts_uploaded : Bool
  receipts_approved : Bool
  created_at : ℚ
  updated_at : ℚ
deriving DecidableEq, Repr

/-- The CHECK constraint on `bookings.status`. -/
def statusCheck (s : String) : Bool :=
  s == "inquiry" || s == "confirmed" || s == "cleared"

/-- The database state visible to the row-level-security policies and to
`get_admin_conversion_stats`. -/
structure DB where
  profiles : List Profile
  bookings : List BookingRow
deriving DecidableEq, Repr

/-- USING clause of the bookings policy "Clients can read their own
bookings":
`client_id = auth.uid() OR EXISTS (SELECT 1 FROM profiles WHERE id =
auth.uid() AND role IN ('admin', 'super_admin'))`. -/
def bookingsSelectUsing (db : DB) (uid : Uuid) (b : BookingRow) : Bool :=
  b.client_id == some uid ||
  db.profiles.any (fun p => p.id == uid && (p.role == "admin" || p.role == "super_admin"))

/-- USING clause of the bookings policy "Admins can update assigned
bookings":
`assigned_admin_id = auth.uid() OR EXISTS (SELECT 1 FROM profiles WHERE
id = auth.uid() AND role = 'super_admin')`. -/
def bookingsUpdateUsing (db : DB) (uid : Uuid) (b : BookingRow) : Bool :=
  b.assigned_admin_id == some uid ||
  db.profiles.any (fun p => p.id == uid && p.role == "super_admin")

/-- In a profile list whose ids are pairwise distinct (the primary key of
`profiles`), two members with the same id are the same row. -/
theorem profile_id_unique {l : List Profile}
    (hnd : (l.map Profile.id).Nodup)
    {p q : Profile} (hp : p ∈ l) (hq : q ∈ l) (h : p.id = q.id) : p = q :=
  List.inj_on_of_nodup_map hnd hp hq h

/-- C1.  The bookings select rule permits the read iff the row's
`client_id` equals the caller's id, or the caller's own `profiles` row
has role `admin` or `super_admin`; hence a client identity can select
only booking rows it owns, while an admin or super_admin can select all
booking rows. -/
theorem C1_bookings_select_policy (db : DB) (uid : Uuid) (b : BookingRow)
    (hnd : (db.profiles.map Profile.id).Nodup) :
    (bookingsSelectUsing db uid b = true ↔
      b.client_id = some uid ∨
        ∃ p ∈ db.profiles, p.id = uid ∧ (p.role = "admin" ∨ p.role = "super_admin"))
    ∧ (∀ p ∈ db.profiles, p.id = uid → p.role = "client" →
        (bookingsSelectUsing db uid b = true ↔ b.client_id = some uid))
    ∧ (∀ p ∈ db.profiles, p.id = uid → (p.role = "admin" ∨ p.role = "super_admin") →
        bookingsSelectUsing db uid b = true) := by
  have hmain : bookingsSelectUsing db uid b = true ↔
      b.client_id = some uid ∨
        ∃ p ∈ db.profiles, p.id = uid ∧ (p.role = "admin" ∨ p.role = "super_admin") := by
    simp [bookingsSelectUsing, List.any_eq_true]
  refine ⟨hmain, ?_, ?_⟩
  · intro p hp hpid hprole
    rw [hmain]
    constructor
    · rintro (h | ⟨q, hq, hqid, hqrole⟩)
      · exact h
      · have : q = p := profile_id_unique hnd hq hp (hqid.trans hpid.symm)
        subst this
        rw [hprole] at hqrole
        rcases hqrole with h | h <;> simp at h
    · intro h; exact Or.inl h
  · intro p hp hpid hprole
    rw [hmain]
    exact Or.inr ⟨p, hp, hpid, hprole⟩

/-- Witness for C1 on a concrete database: caller 1 is a client owning
booking 10; caller 2 is an admin. -/
def sampleProfiles : List Profile :=
  [⟨1, "c@x.com", "Client One", none, "client", none⟩,
   ⟨2, "a@x.com", "Admin One", none, "admin", some "#10B981"⟩,
   ⟨3, "s@x.com", "Super One", none, "super_admin", some "#8B5CF6"⟩]

/-- A concrete booking row used by the witnesses: owned by client 1,
assigned to admin 2, still an inquiry. -/
def sampleBooking : BookingRow :=
  { id := 10, client_id := some 1, client_name := "Client One",
    email := "c@x.com", phone_number := "1234567890",
    event_date := "2025-09-01", time_slot := "9:00 AM - 12:00 PM",
    facility := "Conference Hall A", package := "Basic Package",
    special_requests := none, status := "inquiry",
    assigned_admin_id := some 2, total_spend := none,
    receipts_uploaded := false, receipts_approved := false,
    created_at := 0, updated_at := 7200 }

/-- A concrete database state used by the witnesses. -/
def sampleDB : DB := { profiles := sampleProfiles, bookings := [sampleBooking] }

theorem C1_bookings_select_policy_witness :
    (sampleDB.profiles.map Profile.id).Nodup ∧
      (bookingsSelectUsing sampleDB 1 sampleBooking = true ↔
        sampleBooking.client_id = some 1 ∨
          ∃ p ∈ sampleDB.profiles, p.id = 1 ∧ (p.role = "admin" ∨ p.role = "super_admin")) :=
  ⟨by decide, (C1_bookings_select_policy sampleDB 1 sampleBooking (by decide)).1⟩

/-- C2.  The bookings update rule permits the write iff the caller's id
equals the row's `assigned_admin_id`, or the caller's own `profiles` row
has role `super_admin`.  Consequently, under the application-level
invariant that an assigned admin references an admin-level account: an
admin who is not the assigned admin cannot update the booking, a
super_admin can update it regardless of assignment, and a plain client
can never update a booking. -/
theorem C2_bookings_update_policy (db : DB) (uid : Uuid) (b : BookingRow)
    (hnd : (db.profiles.map Profile.id).Nodup) :
    (bookingsUpdateUsing db uid b = true ↔
      b.assigned_admin_id = some uid ∨
        ∃ p ∈ db.profiles, p.id = uid ∧ p.role = "super_admin")
    ∧ (∀ p ∈ db.profiles, p.id = uid → p.role = "admin" →
        b.assigned_admin_id ≠ some uid → bookingsUpdateUsing db uid b = false)
    ∧ (∀ p ∈ db.profiles, p.id = uid → p.role = "super_admin" →
        bookingsUpdateUsing db uid b = true)
    ∧ ((∀ a, b.assigned_admin_id = some a →
          ∃ q ∈ db.profiles, q.id = a ∧ (q.role = "admin" ∨ q.role = "super_admin")) →
        ∀ p ∈ db.profiles, p.id = uid → p.role = "client" →
          bookingsUpdateUsing db uid b = false) := by
  have hmain : bookingsUpdateUsing db uid b = true ↔
      b.assigned_admin_id = some uid ∨
        ∃ p ∈ db.profiles, p.id = uid ∧ p.role = "super_admin" := by
    simp [bookingsUpdateUsing, List.any_eq_true]
  refine ⟨hmain, ?_, ?_, ?_⟩
  · intro p hp hpid hprole hna
    rcases hb : bookingsUpdateUsing db uid b with _ | _
    · rfl
    · exfalso
      rcases hmain.mp hb with h | ⟨q, hq, hqid, hqrole⟩
      · exact hna h
      · have : q = p := profile_id_unique hnd hq hp (hqid.trans hpid.symm)
        subst this
        rw [hprole] at hqrole
        simp at hqrole
  · intro p hp hpid hprole
    exact hmain.mpr (Or.inr ⟨p, hp, hpid, hprole⟩)
  · intro hinv p hp hpid hprole
    rcases hb : bookingsUpdateUsing db uid b with _ | _
    · rfl
    · exfalso
      rcases hmain.mp hb with h | ⟨q, hq, hqid, hqrole⟩
      · rcases hinv uid h with ⟨q, hq, hqid, hqrole⟩
        have : q = p := profile_id_unique hnd hq hp (hqid.trans hpid.symm)
        subst this
        rw [hprole] at hqrole
        rcases hqrole with h' | h' <;> simp at h'
      · have : q = p := profile_id_unique hnd hq hp (hqid.trans hpid.symm)
        subst this
        rw [hprole] at hqrole
        simp at hqrole

theorem C2_bookings_update_policy_witness :
    (sampleDB.profiles.map Profile.id).Nodup ∧
      (bookingsUpdateUsing sampleDB 2 sampleBooking = true ↔
        sampleBooking.assigned_admin_id = some 2 ∨
          ∃ p ∈ sampleDB.profiles, p.id = 2 ∧ p.role = "super_admin") :=
  ⟨by decide, (C2_bookings_update_policy sampleDB 2 sampleBooking (by decide)).1⟩

/-! ### Profiles policies and the recursion-fix migration (C5) -/

/-- USING clause of the named `profiles` policy, keyed by the policy
name exactly as in the schema file.  "Users can read their own profile"
and "Users can update their own profile" both use `auth.uid() = id`;
"Super admins can read all profiles" uses
`EXISTS (SELECT 1 FROM profiles WHERE id = auth.uid() AND role =
'super_admin')`. -/
def profilesPolicyUsing (db : DB) (uid : Uuid) (row : Profile) : String → Bool
  | "Users can read their own profile" => uid == row.id
  | "Users can update their own profile" => uid == row.id
  | "Super admins can read all profiles" =>
      db.profiles.any (fun p => p.id == uid && p.role == "super_admin")
  | _ => false

/-- The SELECT policies on `profiles` created by the schema file, in
order. -/
def schemaProfilesSelectPolicies : List String :=
  ["Users can read their own profile", "Super admins can read all profiles"]

/-- The UPDATE policies on `profiles` created by the schema file. -/
def schemaProfilesUpdatePolicies : List String :=
  ["Users can update their own profile"]

/-- `DROP POLICY IF EXISTS name` on a list of policies. -/
def dropPolicy (name : String) (ps : List String) : List String :=
  ps.filter (fun n => n != name)

/-- The SELECT policies on `profiles` after the recursion-fix migration,
which runs `DROP POLICY IF EXISTS "Super admins can read all profiles"
ON profiles`. -/
def migratedProfilesSelectPolicies : List String :=
  dropPolicy "Super admins can read all profiles" schemaProfilesSelectPolicies

/-- The UPDATE policies on `profiles` after the migration (the migration
drops no update policy). -/
def migratedProfilesUpdatePolicies : List String :=
  schemaProfilesUpdatePolicies

/-- Permissive policies are OR-combined: an operation on a row is
allowed iff some policy's USING clause evaluates to true. -/
def profilesOpAllowed (policies : List String) (db : DB) (uid : Uuid)
    (row : Profile) : Bool :=
  policies.any (profilesPolicyUsing db uid row)

/-- SELECT permission on a `profiles` row after schema + migration. -/
def profilesSelectAllowed (db : DB) (uid : Uuid) (row : Profile) : Bool :=
  profilesOpAllowed migratedProfilesSelectPolicies db uid row

/-- UPDATE permission on a `profiles` row after schema + migration. -/
def profilesUpdateAllowed (db : DB) (uid : Uuid) (row : Profile) : Bool :=
  profilesOpAllowed migratedProfilesUpdatePolicies db uid row

set_option maxRecDepth 4000 in
/-- C5.  After the schema and the recursion-fix migration, row-level
select and update on `profiles` are each permitted iff the row's id
equals the caller's id; in particular no read rule lets a super_admin
select a `profiles` row other than its own. -/
theorem C5_profiles_policies (db : DB) (uid : Uuid) (row : Profile) :
    (profilesSelectAllowed db uid row = true ↔ row.id = uid)
    ∧ (profilesUpdateAllowed db uid row = true ↔ row.id = uid)
    ∧ (∀ p ∈ db.profiles, p.id = uid → p.role = "super_admin" →
        row.id ≠ uid → profilesSelectAllowed db uid row = false) := by
  have hselred : profilesSelectAllowed db uid row = (uid == row.id || false) := rfl
  have hupdred : profilesUpdateAllowed db uid row = (uid == row.id || false) := rfl
  have hsel : profilesSelectAllowed db uid row = true ↔ row.id = uid := by
    rw [hselred]; simp only [Bool.or_false, beq_iff_eq]; exact eq_comm
  have hupd : profilesUpdateAllowed db uid row = true ↔ row.id = uid := by
    rw [hupdred]; simp only [Bool.or_false, beq_iff_eq]; exact eq_comm
  refine ⟨hsel, hupd, ?_⟩
  intro p _ _ _ hne
  rcases h : profilesSelectAllowed db uid row with _ | _
  · rfl
  · exact absurd (hsel.mp h) hne

theorem C5_profiles_policies_witness :
    (profilesSelectAllowed sampleDB 3
        ⟨1, "c@x.com", "Client One", none, "client", none⟩ = true ↔
      (1 : Uuid) = 3) :=
  (C5_profiles_policies sampleDB 3 ⟨1, "c@x.com", "Client One", none, "client", none⟩).1

/-! ### New-user provisioning trigger (C6) -/

/-- Postgres `split_part(s, given '@', 1)`: the text before the first
`'@'`; the whole string when it holds no `'@'`. -/
def split_part_email (s : String) : String :=
  String.mk (s.data.takeWhile (fun c => c ≠ '@'))

/-- The `raw_user_meta_data` JSON object of a new auth identity,
modelled as a string-to-string association list (`->> 'k'` is `lookup`).
-/
abbrev UserMetaData := List (String × String)

/-- The `handle_new_user` trigger body: insert into `profiles` the row
`(NEW.id, NEW.email, COALESCE(meta->>'name', split_part(NEW.email, '@',
1)), COALESCE(meta->>'role', 'client'))`; `phone` and `admin_color` are
not supplied (NULL). -/
def handle_new_user (id : Uuid) (email : String) (meta : UserMetaData) : Profile :=
  { id := id
    email := email
    name := (meta.lookup "name").getD (split_part_email email)
    phone := none
    role := (meta.lookup "role").getD "client"
    admin_color := none }

/-- C6.  Provisioning a new identity inserts exactly one `profiles` row
keyed by the identity's id, whose name is the metadata `name` when
present and otherwise the local part of the email (text before `'@'`),
and whose role is the metadata `role` when present and otherwise
`client`; with email `a@x.com` and no metadata this gives name `a` and
role `client`. -/
theorem C6_handle_new_user :
    (∀ (id : Uuid) (email : String) (meta : UserMetaData),
      (handle_new_user id email meta).id = id
      ∧ (handle_new_user id email meta).email = email
      ∧ (handle_new_user id email meta).name =
          (match meta.lookup "name" with
           | some n => n
           | none => String.mk (email.data.takeWhile (fun c => c ≠ '@')))
      ∧ (handle_new_user id email meta).role =
          (match meta.lookup "role" with
           | some r => r
           | none => "client"))
    ∧ (handle_new_user 7 "a@x.com" []).name = "a"
    ∧ (handle_new_user 7 "a@x.com" []).role = "client" := by
  refine ⟨?_, by decide, rfl⟩
  intro id email meta
  refine ⟨rfl, rfl, ?_, ?_⟩
  · rcases h : meta.lookup "name" with _ | n <;>
      simp [handle_new_user, split_part_email, h]
  · rcases h : meta.lookup "role" with _ | r <;>
      simp [handle_new_user, h]

/-! ### Public booking form submission (C8) -/

/-- The fields collected by the public `BookingForm` (the
`bookingSchema` zod object). -/
structure BookingFormData where
  client_name : String
  email : String
  phone_number : String
  event_date : String
  time_slot : String
  facility : String
  package : String
  special_requests : Option String
deriving DecidableEq, Repr

/-- The row sent to `supabase.from('bookings').insert` by
`BookingForm.onSubmit`: the form data spread together with
`status: 'inquiry'`, `receipts_uploaded: false`,
`receipts_approved: false`.  Columns not supplied by the insert
(`client_id`, `assigned_admin_id`, `total_spend`) are `none`. -/
structure BookingInsertPayload where
  client_name : String
  email : String
  phone_number : String
  event_date : String
  time_slot : String
  facility : String
  package : String
  special_requests : Option String
  status : String
  receipts_uploaded : Bool
  receipts_approved : Bool
  client_id : Option Uuid
  assigned_admin_id : Option Uuid
  total_spend : Option ℚ
deriving DecidableEq, Repr

/-- `BookingForm.onSubmit`: build the insert payload from the validated
form data. -/
def bookingFormInsert (d : BookingFormData) : BookingInsertPayload :=
  { client_name := d.client_name
    email := d.email
    phone_number := d.phone_number
    event_date := d.event_date
    time_slot := d.time_slot
    facility := d.facility
    package := d.package
    special_requests := d.special_requests
    status := "inquiry"
    receipts_uploaded := false
    receipts_approved := false
    client_id := none
    assigned_admin_id := none
    total_spend := none }

/-- C8.  Every public booking-form submission inserts a row with status
`inquiry`, `receipts_uploaded = false`, `receipts_approved = false`, and
supplies neither `client_id` nor `assigned_admin_id`, so the created
booking carries no reference to the submitting account. -/
theorem C8_booking_form_insert (d : BookingFormData) :
    (bookingFormInsert d).status = "inquiry"
    ∧ (bookingFormInsert d).receipts_uploaded = false
    ∧ (bookingFormInsert d).receipts_approved = false
    ∧ (bookingFormInsert d).client_id = none
    ∧ (bookingFormInsert d).assigned_admin_id = none :=
  ⟨rfl, rfl, rfl, rfl, rfl⟩

/-! ### Authentication form domain gate (C9) -/

/-- The fixed allowed-domains list of `AuthForm`. -/
def ALLOWED_DOMAINS : List String := ["yourcompany.com", "yourdomain.org"]

/-- ASCII lowercasing, the model of JavaScript `toLowerCase` on the
domain strings involved. -/
def lowerStr (s : String) : String :=
  String.mk (s.data.map Char.toLower)

/-- JavaScript `email.split('@')`, modelled on the character list. -/
def emailSplitAt (email : String) : List String :=
  (email.data.splitOn '@').map String.mk

/-- `isOrganizationEmail` from `AuthForm.tsx`:
`const domain = email.split('@')[1]?.toLowerCase();
 return ALLOWED_DOMAINS.includes(domain);`
(`includes(undefined)` is false, modelled by the `none` branch). -/
def isOrganizationEmail (email : String) : Bool :=
  match (emailSplitAt email).get? 1 with
  | some d => ALLOWED_DOMAINS.contains (lowerStr d)
  | none => false

/-- The authentication request issued by `handleSubmit`, when any. -/
inductive AuthCall where
  | signIn (email password : String)
  | signUp (email password name role : String)
deriving DecidableEq, Repr

/-- `AuthForm.handleSubmit`: if the email is not an organization email,
return without calling `signIn`/`signUp`; otherwise call `signIn` when
in login mode and `signUp` otherwise. -/
def handleSubmit (isLogin : Bool) (email password name role : String) :
    Option AuthCall :=
  if !(isOrganizationEmail email) then none
  else if isLogin then some (.signIn email password)
  else some (.signUp email password name role)

/-- The claim reads the domain as the part of the email after the
(first) `'@'`, when the email holds an `'@'` at all.  Modelled from the
claim for comparison with `isOrganizationEmail`. -/
def claimedDomain (email : String) : Option String :=
  match emailSplitAt email with
  | [] => none
  | [_] => none
  | _ :: rest => some (String.intercalate "@" rest)

/-- C9 counterexample.  For the submission with email
`a@yourcompany.com@evil`, the part after the first `'@'` is
`yourcompany.com@evil` (and the part after the last `'@'` is `evil`):
under either reading the domain is not in the allowed list, yet
`handleSubmit` invokes `signIn`, because the code takes
`email.split('@')[1] = yourcompany.com`. -/
theorem C9_domain_gate_counterexample :
    claimedDomain "a@yourcompany.com@evil" = some "yourcompany.com@evil"
    ∧ ALLOWED_DOMAINS.contains (lowerStr "yourcompany.com@evil") = false
    ∧ ALLOWED_DOMAINS.contains (lowerStr "evil") = false
    ∧ handleSubmit true "a@yourcompany.com@evil" "pw" "" "client" =
        some (.signIn "a@yourcompany.com@evil" "pw") := by
  refine ⟨?_, by decide, by decide, ?_⟩ <;> decide

/-- C9 (amended).  `handleSubmit` issues an authentication request iff
the second `'@'`-separated component of the email, lowercased, is in the
allowed list; in particular, for an email of the shape
`local @ domain` with a single `'@'`, if the lowercased domain is not in
the list then neither `signIn` nor `signUp` is invoked, and an email
with no `'@'` never reaches `signIn`/`signUp` either. -/
theorem C9_domain_gate (isLogin : Bool) (email password name role : String) :
    ((handleSubmit isLogin email password name role).isSome ↔
      ∃ d, (emailSplitAt email).get? 1 = some d ∧
        ALLOWED_DOMAINS.contains (lowerStr d) = true)
    ∧ (∀ lp d, emailSplitAt email = [lp, d] →
        ALLOWED_DOMAINS.contains (lowerStr d) = false →
        handleSubmit isLogin email password name role = none)
    ∧ ((emailSplitAt email).get? 1 = none →
        handleSubmit isLogin email password name role = none) := by
  refine ⟨?_, ?_, ?_⟩
  · constructor
    · intro h
      rcases horg : isOrganizationEmail email with _ | _
      · rw [handleSubmit, horg] at h; simp at h
      · rw [isOrganizationEmail] at horg
        rcases hd : (emailSplitAt email).get? 1 with _ | d
        · rw [hd] at horg; simp at horg
        · rw [hd] at horg
          exact ⟨d, rfl, horg⟩
    · rintro ⟨d, hd, hmem⟩
      have horg : isOrganizationEmail email = true := by
        rw [isOrganizationEmail, hd]; exact hmem
      rw [handleSubmit, horg]
      rcases isLogin with _ | _ <;> simp
  · intro lp d hsplit hmem
    have horg : isOrganizationEmail email = false := by
      rw [isOrganizationEmail, hsplit]
      simpa using hmem
    rw [handleSubmit, horg]
    simp
  · intro hd
    have horg : isOrganizationEmail email = false := by
      rw [isOrganizationEmail, hd]
    rw [handleSubmit, horg]
    simp

theorem C9_domain_gate_witness :
    handleSubmit true "a@gmail.com" "pw" "" "client" = none :=
  (C9_domain_gate true "a@gmail.com" "pw" "" "client").2.1
    "a" "gmail.com" (by decide) (by decide)

/-! ### Receipts upload frame property (C10) -/

/-- The row-level effect of `uploadReceipts`: the update object
`{ receipts_uploaded: true, total_spend: totalSpend, updated_at: now }`
applied to one row. -/
def uploadReceiptsRow (totalSpend now : ℚ) (b : BookingRow) : BookingRow :=
  { b with receipts_uploaded := true, total_spend := some totalSpend,
           updated_at := now }

/-- `AdminDashboard.uploadReceipts`: update the rows of the `bookings`
table whose id equals `bookingId` with the object above, leaving every
other row alone (`.eq('id', bookingId)`). -/
def uploadReceipts (tbl : List BookingRow) (bookingId : Uuid)
    (totalSpend now : ℚ) : List BookingRow :=
  tbl.map (fun b => if b.id == bookingId then uploadReceiptsRow totalSpend now b else b)

/-- C10.  `uploadReceipts` touches only `receipts_uploaded` (set to
true), `total_spend` (set to the given amount) and `updated_at` of the
row whose id matches; every other field of that row — in particular
`receipts_approved`, `status` and `assigned_admin_id` — and every other
row are unchanged, and the table keeps its length. -/
theorem C10_uploadReceipts_frame (tbl : List BookingRow) (bookingId : Uuid)
    (totalSpend now : ℚ) (i : Nat) (hi : i < tbl.length) :
    (uploadReceipts tbl bookingId totalSpend now).length = tbl.length
    ∧ ((tbl.get ⟨i, hi⟩).id ≠ bookingId →
        (uploadReceipts tbl bookingId totalSpend now).get
            ⟨i, by simpa [uploadReceipts] using hi⟩ = tbl.get ⟨i, hi⟩)
    ∧ ((tbl.get ⟨i, hi⟩).id = bookingId →
        (uploadReceipts tbl bookingId totalSpend now).get
            ⟨i, by simpa [uploadReceipts] using hi⟩ =
          { tbl.get ⟨i, hi⟩ with
              receipts_uploaded := true
              total_spend := some totalSpend
              updated_at := now })
    ∧ ((uploadReceipts tbl bookingId totalSpend now).get
          ⟨i, by simpa [uploadReceipts] using hi⟩).receipts_approved =
        (tbl.get ⟨i, hi⟩).receipts_approved
    ∧ ((uploadReceipts tbl bookingId totalSpend now).get
          ⟨i, by simpa [uploadReceipts] using hi⟩).status =
        (tbl.get ⟨i, hi⟩).status
    ∧ ((uploadReceipts tbl bookingId totalSpend now).get
          ⟨i, by simpa [uploadReceipts] using hi⟩).assigned_admin_id =
        (tbl.get ⟨i, hi⟩).assigned_admin_id := by
  have hlen : (uploadReceipts tbl bookingId totalSpend now).length = tbl.length := by
    simp [uploadReceipts]
  have hget : (uploadReceipts tbl bookingId totalSpend now).get
      ⟨i, by simpa [uploadReceipts] using hi⟩ =
      (fun b => if b.id == bookingId then uploadReceiptsRow totalSpend now b else b)
        (tbl.get ⟨i, hi⟩) := by
    simp [uploadReceipts]
  refine ⟨hlen, ?_, ?_, ?_, ?_, ?_⟩
  · intro hne
    rw [hget]
    simp only [beq_iff_eq]
    rw [if_neg hne]
  · intro heq
    rw [hget]
    simp only [beq_iff_eq]
    rw [if_pos heq]
    rfl
  · rw [hget]
    simp only [uploadReceiptsRow, beq_iff_eq]
    split <;> rfl
  · rw [hget]
    simp only [uploadReceiptsRow, beq_iff_eq]
    split <;> rfl
  · rw [hget]
    simp only [uploadReceiptsRow, beq_iff_eq]
    split <;> rfl

theorem C10_uploadReceipts_frame_witness :
    (0 : Nat) < [sampleBooking].length ∧
      (uploadReceipts [sampleBooking] 10 1500 9000).length = [sampleBooking].length :=
  ⟨by decide,
    (C10_uploadReceipts_frame [sampleBooking] 10 1500 9000 0 (by decide)).1⟩

/-! ### Booking status lifecycle (C4) -/

/-- `AdminDashboard.updateBookingStatus(bookingId, 'confirmed')` on the
matched row: `{ status: 'confirmed', updated_at: now }`. -/
def confirmBooking (now : ℚ) (b : BookingRow) : BookingRow :=
  { b with status := "confirmed", updated_at := now }

/-- `AdminDashboard.updateBookingStatus(bookingId, 'cleared')` on the
matched row: `{ status: 'cleared', updated_at: now }`. -/
def clearEvent (now : ℚ) (b : BookingRow) : BookingRow :=
  { b with status := "cleared", updated_at := now }

/-- `SuperAdminDashboard.assignInquiry` on the matched row:
`{ assigned_admin_id: adminId, updated_at: now }`. -/
def assignInquiryRow (adminId : Uuid) (now : ℚ) (b : BookingRow) : BookingRow :=
  { b with assigned_admin_id := some adminId, updated_at := now }

/-- The booking mutations the application defines, with the guards under
which the dashboards offer them: the Confirm button is rendered only for
a booking whose status is `inquiry`, the Upload-Receipts and Clear-Event
buttons only for status `confirmed`, and `assignInquiry` is offered only
for unassigned bookings of status `inquiry`. -/
inductive BookingStep : BookingRow → BookingRow → Prop
  | confirm (b : BookingRow) (now : ℚ) (h : b.status = "inquiry") :
      BookingStep b (confirmBooking now b)
  | clear (b : BookingRow) (now : ℚ) (h : b.status = "confirmed") :
      BookingStep b (clearEvent now b)
  | upload (b : BookingRow) (amt now : ℚ) (h : b.status = "confirmed") :
      BookingStep b (uploadReceiptsRow amt now b)
  | assign (b : BookingRow) (adminId : Uuid) (now : ℚ)
      (h : b.status = "inquiry") (hun : b.assigned_admin_id = none) :
      BookingStep b (assignInquiryRow adminId now b)

/-- Position of a status in the lifecycle
`inquiry → confirmed → cleared`. -/
def statusRank (s : String) : Nat :=
  if s = "inquiry" then 0 else if s = "confirmed" then 1 else 2

/-- C4.  Booking statuses range over `{inquiry, confirmed, cleared}`
(the CHECK constraint), and every defined operation of the application
only advances the status along `inquiry → confirmed → cleared`: a single
step never lowers the rank, no step leaves `confirmed` or `cleared` for
an earlier value, and along any sequence of steps the rank is
monotone. -/
theorem C4_status_lifecycle :
    (∀ s, statusCheck s = true ↔ (s = "inquiry" ∨ s = "confirmed" ∨ s = "cleared"))
    ∧ (∀ b b' : BookingRow, BookingStep b b' →
        statusCheck b.status = true ∧ statusCheck b'.status = true ∧
          statusRank b.status ≤ statusRank b'.status)
    ∧ (∀ b b' : BookingRow, BookingStep b b' →
        (b.status = "confirmed" ∨ b.status = "cleared") → b'.status ≠ "inquiry")
    ∧ (∀ b b' : BookingRow, Relation.ReflTransGen BookingStep b b' →
        statusRank b.status ≤ statusRank b'.status) := by
  have henum : ∀ s, statusCheck s = true ↔ (s = "inquiry" ∨ s = "confirmed" ∨ s = "cleared") := by
    intro s
    simp [statusCheck, or_assoc]
  have hstep : ∀ b b' : BookingRow, BookingStep b b' →
      statusCheck b.status = true ∧ statusCheck b'.status = true ∧
        statusRank b.status ≤ statusRank b'.status := by
    intro b b' hs
    cases hs with
    | confirm now h =>
        simp [h, statusCheck, statusRank, confirmBooking]
    | clear now h =>
        simp [h, statusCheck, statusRank, clearEvent]
    | upload amt now h =>
        simp [h, statusCheck, statusRank, uploadReceiptsRow]
    | assign adminId now h hun =>
        simp [h, statusCheck, statusRank, assignInquiryRow]
  refine ⟨henum, hstep, ?_, ?_⟩
  · intro b b' hs hpre
    have h := (hstep b b' hs).2.2
    intro hb'
    rw [hb'] at h
    rcases hpre with hpre | hpre <;> rw [hpre] at h <;> simp [statusRank] at h
  · intro b b' hchain
    induction hchain with
    | refl => exact Nat.le_refl _
    | tail _ hstep2 ih => exact Nat.le_trans ih (hstep _ _ hstep2).2.2

theorem C4_status_lifecycle_witness :
    statusCheck sampleBooking.status = true ∧
      statusCheck (confirmBooking 9000 sampleBooking).status = true ∧
      statusRank sampleBooking.status ≤ statusRank (confirmBooking 9000 sampleBooking).status :=
  C4_status_lifecycle.2.1 sampleBooking (confirmBooking 9000 sampleBooking)
    (BookingStep.confirm sampleBooking 9000 (by decide))

/-! ### Admin conversion statistics (C3) -/

/-- The bookings joined to an admin by
`LEFT JOIN bookings b ON p.id = b.assigned_admin_id`. -/
def assignedBookings (db : DB) (adminId : Uuid) : List BookingRow :=
  db.bookings.filter (fun b => b.assigned_admin_id == some adminId)

/-- Postgres `ROUND(q, 1)` on `numeric`: round half away from zero to
one decimal place; the arguments arising here are nonnegative, where
this is `floor (q * 10 + 1/2) / 10`. -/
def round1 (q : ℚ) : ℚ := (⌊q * 10 + 1 / 2⌋ : ℚ) / 10

/-- One output row of `get_admin_conversion_stats`. -/
structure StatsRow where
  admin_id : Uuid
  admin_name : String
  admin_color : Option String
  inquiries_assigned : Nat
  confirmed_bookings : Nat
  conversion_rate : ℚ
  avg_response_time : ℚ
deriving DecidableEq, Repr

/-- The aggregates of one group of `get_admin_conversion_stats`:
`COUNT(b.id) FILTER (WHERE b.status = 'inquiry')`,
`COUNT(b.id) FILTER (WHERE b.status IN ('confirmed', 'cleared'))`,
`CASE WHEN COUNT(b.id) > 0 THEN ROUND((confirmed / total) * 100, 1) ELSE 0 END`,
and `COALESCE(AVG(EXTRACT(EPOCH FROM (updated_at - created_at)) / 3600), 0)`. -/
def statsFor (db : DB) (p : Profile) : StatsRow :=
  let bs := assignedBookings db p.id
  let total := bs.length
  let confirmed := (bs.filter (fun b => b.status == "confirmed" || b.status == "cleared")).length
  { admin_id := p.id
    admin_name := p.name
    admin_color := p.admin_color
    inquiries_assigned := (bs.filter (fun b => b.status == "inquiry")).length
    confirmed_bookings := confirmed
    conversion_rate :=
      if 0 < total then round1 (((confirmed : ℚ) / (total : ℚ)) * 100) else 0
    avg_response_time :=
      if 0 < total then
        ((bs.map (fun b => (b.updated_at - b.created_at) / 3600)).sum) / (total : ℚ)
      else 0 }

/-- `get_admin_conversion_stats()`: one row per `profiles` row with
`role = 'admin'` (the `GROUP BY p.id` over the left join). -/
def get_admin_conversion_stats (db : DB) : List StatsRow :=
  (db.profiles.filter (fun p => p.role == "admin")).map (statsFor db)

/-- Filtering the stats rows to a given admin id yields exactly the one
row of that admin, provided profile ids are pairwise distinct. -/
theorem stats_row_unique (db : DB) (l : List Profile) (p : Profile)
    (hnd : (l.map Profile.id).Nodup) (hp : p ∈ l) (hrole : p.role = "admin") :
    ((l.filter (fun q => q.role == "admin")).map (statsFor db)).filter
      (fun r => r.admin_id == p.id) = [statsFor db p] := by
  induction l with
  | nil => cases hp
  | cons q l ih =>
      rw [List.map_cons, List.nodup_cons] at hnd
      rcases hnd with ⟨hqid, hnd⟩
      rcases List.mem_cons.mp hp with rfl | hpl
      · have hrest :
            ((l.filter (fun r => r.role == "admin")).map (statsFor db)).filter
              (fun r => r.admin_id == p.id) = [] := by
          rw [List.filter_eq_nil_iff]
          intro r hr
          rcases List.mem_map.mp hr with ⟨a, ha, rfl⟩
          have haid : a.id ∈ l.map Profile.id :=
            List.mem_map.mpr ⟨a, List.mem_of_mem_filter ha, rfl⟩
          have : a.id ≠ p.id := fun h => hqid (h ▸ haid)
          simpa [statsFor] using this
        have hq : (p.role == "admin") = true := by simp [hrole]
        have hhead : ((statsFor db p).admin_id == p.id) = true := by simp [statsFor]
        simp [List.filter_cons, hq, hhead, hrest]
      · have hpid : p.id ∈ l.map Profile.id :=
          List.mem_map.mpr ⟨p, hpl, rfl⟩
        have hne : q.id ≠ p.id := fun h => hqid (h ▸ hpid)
        rcases hqr : (q.role == "admin") with _ | _
        · simpa [List.filter_cons, hqr] using ih hnd hpl
        · have hq2 : ((statsFor db q).admin_id == p.id) = false := by
            simp [statsFor]
            exact hne
          simpa [List.filter_cons, hqr, hq2] using ih hnd hpl

/-- Sum of pointwise quotients by a constant. -/
theorem sum_map_div (l : List BookingRow) (f : BookingRow → ℚ) (a : ℚ) :
    (l.map (fun b => f b / a)).sum = (l.map f).sum / a := by
  induction l with
  | nil => simp
  | cons x xs ih => simp [ih, add_div]

/-- C3.  For every profile with role `admin`, `get_admin_conversion_stats`
returns exactly one row; in it `inquiries_assigned` counts the bookings
assigned to that admin with status `inquiry`, `confirmed_bookings`
counts those with status `confirmed` or `cleared`, `conversion_rate` is
confirmed-or-cleared over total-assigned times 100 rounded to one
decimal place and 0 when nothing is assigned, and `avg_response_time` is
the mean of `updated_at - created_at` in hours over the assigned
bookings, 0 when none. -/
theorem C3_conversion_stats (db : DB) (p : Profile)
    (hp : p ∈ db.profiles) (hrole : p.role = "admin")
    (hnd : (db.profiles.map Profile.id).Nodup) :
    ((get_admin_conversion_stats db).filter (fun r => r.admin_id == p.id) = [statsFor db p])
    ∧ (statsFor db p).admin_id = p.id
    ∧ (statsFor db p).inquiries_assigned =
        (db.bookings.filter
          (fun b => b.assigned_admin_id == some p.id && b.status == "inquiry")).length
    ∧ (statsFor db p).confirmed_bookings =
        (db.bookings.filter
          (fun b => b.assigned_admin_id == some p.id &&
            (b.status == "confirmed" || b.status == "cleared"))).length
    ∧ (assignedBookings db p.id = [] →
        (statsFor db p).conversion_rate = 0 ∧ (statsFor db p).avg_response_time = 0)
    ∧ (assignedBookings db p.id ≠ [] →
        (statsFor db p).conversion_rate =
          round1 (((statsFor db p).confirmed_bookings : ℚ) * 100 /
            ((assignedBookings db p.id).length : ℚ))
        ∧ (statsFor db p).avg_response_time =
            ((assignedBookings db p.id).map (fun b => b.updated_at - b.created_at)).sum /
              (3600 * ((assignedBookings db p.id).length : ℚ))) := by
  have hconf : (statsFor db p).confirmed_bookings =
      ((assignedBookings db p.id).filter
        (fun b => b.status == "confirmed" || b.status == "cleared")).length := rfl
  have hconv : (statsFor db p).conversion_rate =
      (if 0 < (assignedBookings db p.id).length then
        round1 (((((assignedBookings db p.id).filter
            (fun b => b.status == "confirmed" || b.status == "cleared")).length : ℚ) /
          ((assignedBookings db p.id).length : ℚ)) * 100)
      else 0) := rfl
  have havg : (statsFor db p).avg_response_time =
      (if 0 < (assignedBookings db p.id).length then
        ((assignedBookings db p.id).map
          (fun b => (b.updated_at - b.created_at) / 3600)).sum /
          ((assignedBookings db p.id).length : ℚ)
      else 0) := rfl
  refine ⟨stats_row_unique db db.profiles p hnd hp hrole, rfl, ?_, ?_, ?_, ?_⟩
  · simp only [statsFor, assignedBookings, List.filter_filter]
    congr 2
    funext b
    exact Bool.and_comm _ _
  · simp only [statsFor, assignedBookings, List.filter_filter]
    congr 2
    funext b
    exact Bool.and_comm _ _
  · intro hempty
    constructor
    · rw [hconv, hempty]; simp
    · rw [havg, hempty]; simp
  · intro hne
    have hpos : 0 < (assignedBookings db p.id).length :=
      List.length_pos.mpr hne
    constructor
    · rw [hconv, if_pos hpos, hconf]
      congr 1
      ring
    · rw [havg, if_pos hpos, sum_map_div, div_div]

/-- A concrete booking assigned to admin 2 with the given status and
response time, for the C3 witness. -/
def statsBooking (bid : Uuid) (st : String) (updated : ℚ) : BookingRow :=
  { id := bid, client_id := some 1, client_name := "Client One",
    email := "c@x.com", phone_number := "1234567890",
    event_date := "2025-09-01", time_slot := "9:00 AM - 12:00 PM",
    facility := "Conference Hall A", package := "Basic Package",
    special_requests := none, status := st,
    assigned_admin_id := some 2, total_spend := none,
    receipts_uploaded := false, receipts_approved := false,
    created_at := 0, updated_at := updated }

/-- The admin of the C3 witness: 4 assigned bookings, 3 of them
confirmed or cleared. -/
def statsAdmin : Profile := ⟨2, "a@x.com", "Admin One", none, "admin", some "#10B981"⟩

/-- An admin with no assigned bookings, for the zero cases of C3. -/
def statsIdleAdmin : Profile := ⟨4, "i@x.com", "Admin Two", none, "admin", none⟩

/-- Database for the C3 witness: response times of 0, 1, 2 and 3 hours,
so the mean is 1.5 hours, and 3 of 4 assigned bookings confirmed or
cleared, so the conversion rate is 75.0. -/
def statsDB : DB :=
  { profiles := [⟨1, "c@x.com", "Client One", none, "client", none⟩,
                 statsAdmin, statsIdleAdmin],
    bookings := [statsBooking 11 "inquiry" 0,
                 statsBooking 12 "confirmed" 3600,
                 statsBooking 13 "confirmed" 7200,
                 statsBooking 14 "cleared" 10800] }

theorem C3_conversion_stats_witness :
    statsAdmin ∈ statsDB.profiles ∧ statsAdmin.role = "admin" ∧
      (statsDB.profiles.map Profile.id).Nodup ∧
      ((get_admin_conversion_stats statsDB).filter
          (fun r => r.admin_id == statsAdmin.id) = [statsFor statsDB statsAdmin]) ∧
      (statsFor statsDB statsAdmin).inquiries_assigned = 1 ∧
      (statsFor statsDB statsAdmin).confirmed_bookings = 3 ∧
      (statsFor statsDB statsAdmin).conversion_rate = 75 ∧
      (statsFor statsDB statsAdmin).avg_response_time = 3 / 2 ∧
      (statsFor statsDB statsIdleAdmin).conversion_rate = 0 ∧
      (statsFor statsDB statsIdleAdmin).avg_response_time = 0 :=
  by
  have happ := C3_conversion_stats statsDB statsAdmin (by decide) rfl (by decide)
  have hbusy := happ.2.2.2.2.2 (by decide)
  have hidle :=
    (C3_conversion_stats statsDB statsIdleAdmin (by decide) rfl (by decide)).2.2.2.2.1
      (by decide)
  have hlist : assignedBookings statsDB statsAdmin.id =
      [statsBooking 11 "inquiry" 0, statsBooking 12 "confirmed" 3600,
       statsBooking 13 "confirmed" 7200, statsBooking 14 "cleared" 10800] := by decide
  have hc : (statsFor statsDB statsAdmin).confirmed_bookings = 3 := by decide
  refine ⟨by decide, rfl, by decide, happ.1, by decide, hc, ?_, ?_, hidle.1, hidle.2⟩
  · rw [hbusy.1, hc, hlist]
    norm_num [round1]
  · rw [hbusy.2, hlist]
    norm_num [statsBooking]

/-! ### Re-running the schema-creation statements (C7) -/

/-- The kinds of DDL statements the schema file contains. -/
inductive Stmt where
  | createTableIfNotExists (name : String)
  | alterTableEnableRLS (name : String)
  | createPolicy (table policy : String)
  | createOrReplaceFunction (name : String)
  | dropTriggerIfExists (table trigger : String)
  | createTrigger (table trigger : String)
  | createIndexIfNotExists (name : String)
deriving DecidableEq, Repr

/-- The objects a database holds, by name. -/
structure Catalog where
  tables : List String
  rlsEnabled : List String
  policies : List (String × String)
  functions : List String
  triggers : List (String × String)
  indexes : List String
deriving DecidableEq, Repr

/-- A database with none of the schema objects yet. -/
def Catalog.empty : Catalog := ⟨[], [], [], [], [], []⟩

/-- Postgres semantics of each statement kind: the `IF NOT EXISTS` /
`OR REPLACE` / `DROP ... IF EXISTS` forms never fail and leave an
existing identical object in place, while a bare `CREATE POLICY` or
`CREATE TRIGGER` raises a duplicate-object error when the object already
exists. -/
def execStmt (c : Catalog) : Stmt → Except String Catalog
  | .createTableIfNotExists n =>
      .ok (if c.tables.contains n then c else { c with tables := c.tables ++ [n] })
  | .alterTableEnableRLS n =>
      .ok (if c.rlsEnabled.contains n then c
           else { c with rlsEnabled := c.rlsEnabled ++ [n] })
  | .createPolicy t p =>
      if c.policies.contains (t, p) then .error ("duplicate policy: " ++ p)
      else .ok { c with policies := c.policies ++ [(t, p)] }
  | .createOrReplaceFunction n =>
      .ok (if c.functions.contains n then c
           else { c with functions := c.functions ++ [n] })
  | .dropTriggerIfExists t tr =>
      .ok { c with triggers := c.triggers.filter (fun x => x != (t, tr)) }
  | .createTrigger t tr =>
      if c.triggers.contains (t, tr) then .error ("duplicate trigger: " ++ tr)
      else .ok { c with triggers := c.triggers ++ [(t, tr)] }
  | .createIndexIfNotExists n =>
      .ok (if c.indexes.contains n then c else { c with indexes := c.indexes ++ [n] })

/-- Run statements in order, stopping at the first error. -/
def execAll (c : Catalog) : List Stmt → Except String Catalog
  | [] => .ok c
  | s :: rest =>
      match execStmt c s with
      | .ok c2 => execAll c2 rest
      | .error e => .error e

/-- The DDL statements of the schema file, in source order. -/
def schemaStmts : List Stmt :=
  [.createTableIfNotExists "profiles",
   .createTableIfNotExists "bookings",
   .createTableIfNotExists "notifications",
   .alterTableEnableRLS "profiles",
   .alterTableEnableRLS "bookings",
   .alterTableEnableRLS "notifications",
   .createPolicy "profiles" "Users can read their own profile",
   .createPolicy "profiles" "Users can update their own profile",
   .createPolicy "profiles" "Super admins can read all profiles",
   .createPolicy "bookings" "Clients can read their own bookings",
   .createPolicy "bookings" "Anyone can create bookings",
   .createPolicy "bookings" "Admins can update assigned bookings",
   .createPolicy "notifications" "Users can read their own notifications",
   .createPolicy "notifications" "System can create notifications",
   .createPolicy "notifications" "Users can update their own notifications",
   .createOrReplaceFunction "get_admin_conversion_stats",
   .createOrReplaceFunction "handle_new_user",
   .dropTriggerIfExists "auth.users" "on_auth_user_created",
   .createTrigger "auth.users" "on_auth_user_created",
   .createIndexIfNotExists "idx_bookings_status",
   .createIndexIfNotExists "idx_bookings_assigned_admin",
   .createIndexIfNotExists "idx_bookings_event_date",
   .createIndexIfNotExists "idx_notifications_user_id",
   .createIndexIfNotExists "idx_notifications_read"]

/-- Whether a statement is one of the unguarded `CREATE POLICY`
statements. -/
def isPolicyStmt : Stmt → Bool
  | .createPolicy _ _ => true
  | _ => false

/-- The catalog after one successful run of the schema file. -/
def afterSchema : Catalog :=
  { tables := ["profiles", "bookings", "notifications"],
    rlsEnabled := ["profiles", "bookings", "notifications"],
    policies :=
      [("profiles", "Users can read their own profile"),
       ("profiles", "Users can update their own profile"),
       ("profiles", "Super admins can read all profiles"),
       ("bookings", "Clients can read their own bookings"),
       ("bookings", "Anyone can create bookings"),
       ("bookings", "Admins can update assigned bookings"),
       ("notifications", "Users can read their own notifications"),
       ("notifications", "System can create notifications"),
       ("notifications", "Users can update their own notifications")],
    functions := ["get_admin_conversion_stats", "handle_new_user"],
    triggers := [("auth.users", "on_auth_user_created")],
    indexes := ["idx_bookings_status", "idx_bookings_assigned_admin",
                "idx_bookings_event_date", "idx_notifications_user_id",
                "idx_notifications_read"] }

/-- C7 counterexample.  Running the schema-creation statements twice in
a row is not a no-op: the second pass stops with a duplicate-object
error at the first `CREATE POLICY` statement, because the policy
statements carry no `IF NOT EXISTS` guard. -/
theorem C7_rerun_counterexample :
    execAll Catalog.empty (schemaStmts ++ schemaStmts) =
      .error "duplicate policy: Users can read their own profile" := by
  rfl

/-- C7 (amended).  The first run of the schema succeeds; re-running just
the guarded statements (everything except the `CREATE POLICY`
statements) is a no-op returning the same catalog; but re-running the
full statement list fails at the first `CREATE POLICY`. -/
theorem C7_schema_rerun :
    execAll Catalog.empty schemaStmts = .ok afterSchema
    ∧ execAll afterSchema (schemaStmts.filter (fun s => !(isPolicyStmt s))) =
        .ok afterSchema
    ∧ execAll afterSchema schemaStmts =
        .error "duplicate policy: Users can read their own profile" := by
  refine ⟨rfl, rfl, rfl⟩

end BookingSystem
